import Mathlib

/-!
Verification of the position-protection and reversal-trigger engine of
`vn_qtrade` (`src/vn_qtrade/okx_engine.py`, class `OKXEngine`).

Shallow embedding conventions:
* prices, ratios and volumes are modelled as exact rationals (`ℚ`);
* Python dictionaries keyed by `vt_symbol` are modelled as association
  lists (`List (String × α)`) with dict-style lookup (`dget`) and
  assignment (`dset`: update in place, append for a fresh key);
* the ccxt gateway is an oracle `gw : Submission → Option String`
  returning the `code` field of the response dict of
  `private_post_trade_order_algo`; `none` models the exception path in
  which `send_trigger_order` catches the error, logs, and returns
  Python `None`;
* Python exceptions that escape a method are an explicit error channel
  `Option PyErr`; state mutations performed before the raise persist,
  so stateful methods return `state × actions × Option PyErr`;
* calls to the exchange (order submission, cancellation, market close,
  subscription) are recorded as `Action`s; log lines are not modelled.
-/

namespace OKX

/-- Python exceptions that can escape the modelled methods. -/
inductive PyErr where
  | keyError
  | indexError
  | typeError
  | assertionError
  deriving DecidableEq, Repr

/-- Position direction (`vnpy` `Direction.LONG` / `Direction.SHORT`). -/
inductive Direction where
  | long
  | short
  deriving DecidableEq, Repr

/-- Tick snapshot: the fields of `TickData` the engine reads. -/
structure TickData where
  vt_symbol : String
  last_price : ℚ
  deriving DecidableEq, Repr

/-- Position snapshot: the fields of `PositionData` the engine reads
(`price` is the entry price, `lever` the leverage, `liqPrice` the
liquidation price). -/
structure PositionData where
  vt_symbol : String
  direction : Direction
  volume : ℚ
  price : ℚ
  lever : ℚ
  liqPrice : ℚ
  pnlRatio : ℚ
  deriving DecidableEq, Repr

/-- One per-symbol entry of `self.sltp_cfg`.  In the source this is a
dict with keys `stoploss` and `takeprofit`; both keys are always
assigned together when the entry is created (lines 567-569) and every
setter only overwrites one of them, so the entry is modelled as a
record with both fields present. -/
structure SLTPCfg where
  stoploss : ℚ
  takeprofit : ℚ
  deriving DecidableEq, Repr

/-- One pending trigger-trigger order, the `tto_data` dict built in
`set_trigger_trigger_order`. -/
structure TTOData where
  vt_symbol : String
  side : String
  trigPx1 : ℚ
  trigPx2 : ℚ
  volume : ℚ
  orderPx : ℚ
  deriving DecidableEq, Repr

/-- Argument record of a `send_trigger_order` call (an OKX `trigger`
algo-order request: `tdMode` is always `cross` and `orderPx` always
`-1`, so those fields are omitted). -/
structure Submission where
  vt_symbol : String
  side : String
  posSide : String
  price : ℚ
  sz : ℚ
  deriving DecidableEq, Repr

/-- Externally observable effects of the engine. `coverPass` is the
call trace of an invocation of `set_trigger_cover_positions` (with its
`vt_symbol` filter argument); the others are exchange calls. -/
inductive Action where
  | coverPass (fil : Option String)
  | cancelAll (vt_symbol : String) (side : String)
  | subscribe (vt_symbol : String)
  | submit (s : Submission)
  | marketClose (vt_symbol : String) (side : String) (sz : ℚ)
  deriving DecidableEq, Repr

/-- Python dict lookup `d.get(k)` on an association list. -/
def dget {α : Type} : List (String × α) → String → Option α
  | [], _ => none
  | (k', v) :: rest, k => if k' = k then some v else dget rest k

/-- Python dict assignment `d[k] = v`: overwrite in place when the key
exists, append otherwise. -/
def dset {α : Type} : List (String × α) → String → α → List (String × α)
  | [], k, v => [(k, v)]
  | (k', v') :: rest, k, v =>
      if k' = k then (k, v) :: rest else (k', v') :: dset rest k v

/-- Python `round()`: round half to even (banker's rounding). -/
def pyRound (q : ℚ) : ℤ :=
  let f : ℤ := ⌊q⌋
  let r : ℚ := q - f
  if r < 1/2 then f
  else if 1/2 < r then f + 1
  else if f % 2 = 0 then f else f + 1

/-- The mutable state of `OKXEngine` relevant to the verified methods
(field `pauseFlag` is the source's `_pause`). -/
structure OKXEngineState where
  sltp_cfg : List (String × SLTPCfg)
  default_sl : ℚ
  default_tp : ℚ
  trigger_trigger_orders : List (String × List TTOData)
  tp_with_trigger : Bool
  max_tp : ℚ
  last_position : List (String × PositionData)
  offset : ℚ
  cancel_tp : Bool
  last_tick : List (String × TickData)
  pauseFlag : Bool
  deriving DecidableEq, Repr

/-- Method `set_trigger_trigger_order` (lines 818-840): validates the first
trigger price against the cached current tick and appends the new
watch (replacing the queue first when `clean_others`).  Reading
`self.last_tick[vt_symbol]` raises `KeyError` when no tick is cached;
the side checks short-circuit exactly as the Python `and` does. -/
def set_trigger_trigger_order (last_tick : List (String × TickData))
    (ttos : List (String × List TTOData))
    (vt_symbol side : String) (trigPx1 trigPx2 volume orderPx : ℚ)
    (clean_others : Bool) :
    List (String × List TTOData) × Option PyErr :=
  let tto_data : TTOData :=
    ⟨vt_symbol, side, trigPx1, trigPx2, volume, orderPx⟩
  let rejected : Except PyErr Bool :=
    if side = "buy" then
      match dget last_tick vt_symbol with
      | none => Except.error PyErr.keyError
      | some t => Except.ok (trigPx1 > t.last_price)
    else if side = "sell" then
      match dget last_tick vt_symbol with
      | none => Except.error PyErr.keyError
      | some t => Except.ok (trigPx1 < t.last_price)
    else Except.ok false
  match rejected with
  | Except.error e => (ttos, some e)
  | Except.ok true => (ttos, none)
  | Except.ok false =>
      let base :=
        if (dget ttos vt_symbol).isNone || clean_others
        then dset ttos vt_symbol [] else ttos
      (dset base vt_symbol ((dget base vt_symbol).getD [] ++ [tto_data]), none)

/-- The loop `for i in range(0, len(ttos))` of
`check_trigger_trigger_order` (lines 866-899).  `fuel` is the
remaining length of the range captured at loop entry, `i` the current
index.  Reading `ttos[i]` past the end of the (possibly shortened)
list raises `IndexError`; a fired watch is removed with `pop(i)` only
when the gateway reply code is `"0"`; a `None` gateway reply (the
exception path of `send_trigger_order`) makes `data['code']` raise
`TypeError`.  Mutations performed before a raise persist. -/
def ttoScan (gw : Submission → Option String) (price : ℚ) (sym : String) :
    Nat → Nat → List TTOData → List TTOData × List Action × Option PyErr
  | 0, _, ttos => (ttos, [], none)
  | fuel + 1, i, ttos =>
    match ttos.get? i with
    | none => (ttos, [], some PyErr.indexError)
    | some tto =>
      if tto.side = "buy" then
        if price < tto.trigPx1 then
          let sub : Submission := ⟨sym, tto.side, "long", tto.trigPx2, tto.volume⟩
          match gw sub with
          | none => (ttos, [Action.submit sub], some PyErr.typeError)
          | some code =>
            if code = "0" then
              let r := ttoScan gw price sym fuel (i + 1) (ttos.eraseIdx i)
              (r.1, Action.submit sub :: r.2.1, r.2.2)
            else
              let r := ttoScan gw price sym fuel (i + 1) ttos
              (r.1, Action.submit sub :: r.2.1, r.2.2)
        else ttoScan gw price sym fuel (i + 1) ttos
      else if tto.side = "sell" then
        if price > tto.trigPx1 then
          let sub : Submission := ⟨sym, tto.side, "short", tto.trigPx2, tto.volume⟩
          match gw sub with
          | none => (ttos, [Action.submit sub], some PyErr.typeError)
          | some code =>
            if code = "0" then
              let r := ttoScan gw price sym fuel (i + 1) (ttos.eraseIdx i)
              (r.1, Action.submit sub :: r.2.1, r.2.2)
            else
              let r := ttoScan gw price sym fuel (i + 1) ttos
              (r.1, Action.submit sub :: r.2.1, r.2.2)
        else ttoScan gw price sym fuel (i + 1) ttos
      else ttoScan gw price sym fuel (i + 1) ttos

/-- Method `check_trigger_trigger_order` (lines 858-899): of all entries of
`self.trigger_trigger_orders`, only the one whose key equals the
tick's symbol is processed (dict keys are unique); its queue is
scanned by `ttoScan` and written back. -/
def check_trigger_trigger_order (gw : Submission → Option String)
    (tick : TickData) (ttos : List (String × List TTOData)) :
    List (String × List TTOData) × List Action × Option PyErr :=
  match dget ttos tick.vt_symbol with
  | none => (ttos, [], none)
  | some q =>
    let r := ttoScan gw tick.last_price tick.vt_symbol q.length 0 q
    (dset ttos tick.vt_symbol r.1, r.2.1, r.2.2)

/-- Method `adjust_tp` (lines 904-917): `assert mul > 0` first; for a single
symbol the entry (when present) gets `takeprofit = abs(stoploss) * mul`;
for the all-symbols branch every entry gets
`takeprofit = stoploss * mul` (no absolute value in the source). -/
def adjust_tp (sltp_cfg : List (String × SLTPCfg)) (vt_symbol : Option String)
    (mul : ℚ) : List (String × SLTPCfg) × Option PyErr :=
  if ¬ mul > 0 then (sltp_cfg, some PyErr.assertionError)
  else
    match vt_symbol with
    | some sym =>
      match dget sltp_cfg sym with
      | none => (sltp_cfg, none)
      | some cfg =>
          (dset sltp_cfg sym { cfg with takeprofit := |cfg.stoploss| * mul }, none)
    | none =>
        (sltp_cfg.map fun kc => (kc.1, { kc.2 with takeprofit := kc.2.stoploss * mul }),
         none)

/-- The stop-loss trigger-price computation of
`set_trigger_cover_positions` (lines 578-603), direction dependent.
`o` is the pass's `offset` argument, `global_offset` the engine-wide
`self.offset`, `max_tp` the engine's `self.max_tp`.  In `use_tick_price`
mode the current market price `self.last_tick[vt_symbol]` replaces the
entry price (a `KeyError` when no tick is cached); otherwise the
entry-price formula applies, clamped at the liquidation price, and
`use_max_tp` overrides the result with the lock-in price whenever the
pnl ratio exceeds `max_tp`. -/
def sl_trigger_price (o : ℚ) (use_tick_price use_max_tp : Bool)
    (global_offset max_tp : ℚ) (last_tick : List (String × TickData))
    (p : PositionData) (sl : ℚ) : Except PyErr ℚ :=
  if p.direction = Direction.short then
    if use_tick_price then
      match dget last_tick p.vt_symbol with
      | none => Except.error PyErr.keyError
      | some t =>
          let x := t.last_price * (1 + o / p.lever)
          Except.ok (if x ≥ p.liqPrice
            then p.liqPrice * (1 - global_offset / p.lever) else x)
    else
      let x := p.price * (1 - (sl - o) / p.lever)
      let x := if x ≥ p.liqPrice
        then p.liqPrice * (1 - global_offset / p.lever) else x
      Except.ok (if use_max_tp = true ∧ p.pnlRatio > max_tp
        then p.price * (1 + (max_tp - global_offset) / p.lever) else x)
  else
    if use_tick_price then
      match dget last_tick p.vt_symbol with
      | none => Except.error PyErr.keyError
      | some t =>
          let x := t.last_price * (1 - o / p.lever)
          Except.ok (if x ≤ p.liqPrice
            then p.liqPrice * (1 + global_offset / p.lever) else x)
    else
      let x := p.price * (1 + (sl + o) / p.lever)
      let x := if x ≤ p.liqPrice
        then p.liqPrice * (1 + global_offset / p.lever) else x
      Except.ok (if use_max_tp = true ∧ p.pnlRatio > max_tp
        then p.price * (1 - (max_tp + global_offset) / p.lever) else x)

/-- Body of the `for position in positions` loop of
`set_trigger_cover_positions` (lines 555-651), after the `vt_symbol`
filter: cancel existing triggers when `cancel_all`, skip flat
positions, lazily install the default risk config (with a tick
subscription) for an unconfigured symbol, `assert not (use_tick_price
and use_max_tp)`, compute the direction-dependent stop-loss trigger
price (clamped at the liquidation price, overridden by the
`use_max_tp` lock-in price), submit it, and in the non-trigger
take-profit mode (`tp_with_trigger` off) also submit a take-profit
trigger order.  A `None` gateway reply makes `data['code']` raise
`TypeError`. -/
def cover_position_body (gw : Submission → Option String)
    (cancel_all : Bool) (o : ℚ) (use_tick_price use_max_tp : Bool)
    (st : OKXEngineState) (p : PositionData) :
    OKXEngineState × List Action × Option PyErr :=
  let cside := if p.direction = Direction.short then "short" else "long"
  let acts0 := if cancel_all then [Action.cancelAll p.vt_symbol cside] else []
  if p.volume = 0 then (st, acts0, none)
  else
    let side := if p.direction = Direction.long then "sell" else "buy"
    let posSide := if side = "buy" then "short" else "long"
    let sz : ℚ := ((pyRound p.volume : ℤ) : ℚ)
    let resolved : OKXEngineState × List Action × SLTPCfg :=
      match dget st.sltp_cfg p.vt_symbol with
      | none =>
          let cfg0 : List (String × SLTPCfg) :=
            dset st.sltp_cfg p.vt_symbol ⟨st.default_sl, st.default_tp⟩
          ({ st with sltp_cfg := cfg0 },
           [Action.subscribe p.vt_symbol], ⟨st.default_sl, st.default_tp⟩)
      | some cfg => (st, [], cfg)
    let st1 := resolved.1
    let acts1 := acts0 ++ resolved.2.1
    let sl := resolved.2.2.stoploss
    let tpv := resolved.2.2.takeprofit
    if use_tick_price = true ∧ use_max_tp = true then
      (st1, acts1, some PyErr.assertionError)
    else
      -- stop-loss block; the source guard `sl is not None` always holds
      -- because both config keys are assigned together at creation
      match sl_trigger_price o use_tick_price use_max_tp st1.offset st1.max_tp
        st1.last_tick p sl with
      | Except.error e => (st1, acts1, some e)
      | Except.ok trig =>
        let sub : Submission := ⟨p.vt_symbol, side, posSide, trig, sz⟩
        match gw sub with
        | none => (st1, acts1 ++ [Action.submit sub], some PyErr.typeError)
        | some _code =>
          -- take-profit block: `tp is not None and not self.tp_with_trigger`
          if st1.tp_with_trigger = false then
            let trig2 :=
              if p.direction = Direction.short
              then p.price * (1 - (tpv - o) / p.lever)
              else p.price * (1 + (tpv + o) / p.lever)
            let sub2 : Submission := ⟨p.vt_symbol, side, posSide, trig2, sz⟩
            match gw sub2 with
            | none =>
                (st1, acts1 ++ [Action.submit sub, Action.submit sub2],
                 some PyErr.typeError)
            | some _ =>
                (st1, acts1 ++ [Action.submit sub, Action.submit sub2], none)
          else (st1, acts1 ++ [Action.submit sub], none)

/-- The filter at line 554:
`if vt_symbol is not None and position.vt_symbol != vt_symbol: continue`. -/
def filteredOut (fil : Option String) (p : PositionData) : Bool :=
  match fil with
  | some v => decide (p.vt_symbol ≠ v)
  | none => false

/-- The `for position in positions` loop of
`set_trigger_cover_positions`, including the `vt_symbol` filter
(line 554); an exception escaping one iteration aborts the remaining
iterations while keeping the mutations and submissions already
performed. -/
def cover_positions_loop (gw : Submission → Option String)
    (cancel_all : Bool) (o : ℚ) (use_tick_price use_max_tp : Bool)
    (fil : Option String) :
    List PositionData → OKXEngineState →
    OKXEngineState × List Action × Option PyErr
  | [], st => (st, [], none)
  | p :: rest, st =>
    if filteredOut fil p then
      cover_positions_loop gw cancel_all o use_tick_price use_max_tp fil rest st
    else
      let r := cover_position_body gw cancel_all o use_tick_price use_max_tp st p
      match r.2.2 with
      | some e => (r.1, r.2.1, some e)
      | none =>
        let r2 := cover_positions_loop gw cancel_all o use_tick_price use_max_tp
          fil rest r.1
        (r2.1, r.2.1 ++ r2.2.1, r2.2.2)

/-- Method `set_trigger_cover_positions` (lines 551-651).  `positions` is the
snapshot returned by `get_all_positions`; the head `Action.coverPass`
records the invocation of the method itself.  Source defaults:
`cancel_all=True, offset=0.0, use_tick_price=False, use_max_tp=False,
vt_symbol=None` (arguments are passed explicitly here). -/
def set_trigger_cover_positions (gw : Submission → Option String)
    (positions : List PositionData) (cancel_all : Bool) (o : ℚ)
    (use_tick_price use_max_tp : Bool) (fil : Option String)
    (st : OKXEngineState) : OKXEngineState × List Action × Option PyErr :=
  let r := cover_positions_loop gw cancel_all o use_tick_price use_max_tp fil
    positions st
  (r.1, Action.coverPass fil :: r.2.1, r.2.2)

/-- The protective-order refresh guard at the head of `check_sl_tp`
(lines 922-926): refresh when there is no cached snapshot for the
symbol or the cached snapshot's volume differs. -/
def refresh_decision (last_position : List (String × PositionData))
    (p : PositionData) : Bool :=
  match dget last_position p.vt_symbol with
  | none => true
  | some lp => decide (p.volume ≠ lp.volume)

/-- The `for (vt_symbol, sltp_cfg) in self.sltp_cfg.items()` section of
`check_sl_tp` (lines 929-978), restricted to the unique entry matching
the position's symbol.  Python truthiness: `if sl and ...` skips a
zero stop-loss (likewise for take-profit).  The stop-loss branch
market-closes the position (`cover_position` swallows its own
errors); the take-profit branch in trigger mode reads
`self.last_tick[vt_symbol]` (a `KeyError` when absent), optionally
cancels prior triggers, and submits a new trigger order (`None` reply
⇒ `TypeError` at `data['code']`). -/
def sl_tp_checks (gw : Submission → Option String) (p : PositionData)
    (st : OKXEngineState) : List Action × Option PyErr :=
  match dget st.sltp_cfg p.vt_symbol with
  | none => ([], none)
  | some cfg =>
    let side := if p.direction = Direction.long then "sell" else "buy"
    let posSide := if side = "buy" then "short" else "long"
    let sz : ℚ := ((pyRound p.volume : ℤ) : ℚ)
    let slActs :=
      if cfg.stoploss ≠ 0 ∧ p.pnlRatio < cfg.stoploss
      then [Action.marketClose p.vt_symbol side sz] else []
    if cfg.takeprofit ≠ 0 ∧ p.pnlRatio > cfg.takeprofit then
      if st.tp_with_trigger = true then
        match dget st.last_tick p.vt_symbol with
        | none => (slActs, some PyErr.keyError)
        | some t =>
          let trig :=
            if p.direction = Direction.long then
              if p.pnlRatio > st.max_tp
              then p.price * (1 + (st.max_tp - st.offset) / p.lever)
              else t.last_price * (1 - st.offset / p.lever)
            else
              if p.pnlRatio > st.max_tp
              then p.price * (1 - (st.max_tp + st.offset) / p.lever)
              else t.last_price * (1 + st.offset / p.lever)
          let cancelActs :=
            if st.cancel_tp then [Action.cancelAll p.vt_symbol posSide] else []
          let sub : Submission := ⟨p.vt_symbol, side, posSide, trig, sz⟩
          let err : Option PyErr :=
            match gw sub with
            | none => some PyErr.typeError
            | some _ => none
          (slActs ++ cancelActs ++ [Action.submit sub], err)
      else (slActs ++ [Action.marketClose p.vt_symbol side sz], none)
    else (slActs, none)

/-- Method `check_sl_tp` (lines 919-978): refresh the protective orders when
the guard fires, return early when the position volume is not
positive, then run the per-symbol stop-loss/take-profit checks. -/
def check_sl_tp (gw : Submission → Option String)
    (positions : List PositionData) (p : PositionData)
    (st : OKXEngineState) : OKXEngineState × List Action × Option PyErr :=
  let r1 :=
    if refresh_decision st.last_position p then
      set_trigger_cover_positions gw positions true 0 false false
        (some p.vt_symbol) st
    else (st, [], none)
  match r1.2.2 with
  | some e => (r1.1, r1.2.1, some e)
  | none =>
    if ¬ p.volume > 0 then (r1.1, r1.2.1, none)
    else
      let r2 := sl_tp_checks gw p r1.1
      (r1.1, r1.2.1 ++ r2.1, r2.2)

/-- Method `process_position_event` (lines 449-457): run `check_sl_tp` unless
paused, swallow any exception (logged), then cache the snapshot in
`self.last_position` unconditionally. -/
def process_position_event (gw : Submission → Option String)
    (positions : List PositionData) (p : PositionData)
    (st : OKXEngineState) : OKXEngineState × List Action :=
  let r := if st.pauseFlag = false then check_sl_tp gw positions p st
           else (st, [], none)
  ({ r.1 with last_position := dset r.1.last_position p.vt_symbol p }, r.2.1)

/-- Method `process_tick_event` (lines 422-429): cache the tick in
`self.last_tick`, then run `check_trigger_trigger_order`, swallowing
any exception (logged). -/
def process_tick_event (gw : Submission → Option String) (t : TickData)
    (st : OKXEngineState) : OKXEngineState × List Action :=
  let st0 := { st with last_tick := dset st.last_tick t.vt_symbol t }
  let r := check_trigger_trigger_order gw t st0.trigger_trigger_orders
  ({ st0 with trigger_trigger_orders := r.1 }, r.2.1)

/-- Method `pause` (lines 431-433): set `_pause` when it is unset. -/
def pause (st : OKXEngineState) : OKXEngineState :=
  if st.pauseFlag = false then { st with pauseFlag := true } else st

/-- Method `resume` (lines 435-437): clear `_pause` when it is set. -/
def resume (st : OKXEngineState) : OKXEngineState :=
  if st.pauseFlag = true then { st with pauseFlag := false } else st

/-- Method `set_sl` (lines 473-475): `self.sltp_cfg[vt_symbol]['stoploss'] = sl`
(a `KeyError` when the symbol has no config entry), then a
protective-order refresh for that symbol. -/
def set_sl (gw : Submission → Option String) (positions : List PositionData)
    (vt_symbol : String) (sl : ℚ) (st : OKXEngineState) :
    OKXEngineState × List Action × Option PyErr :=
  match dget st.sltp_cfg vt_symbol with
  | none => (st, [], some PyErr.keyError)
  | some cfg =>
    let cfg1 := dset st.sltp_cfg vt_symbol { cfg with stoploss := sl }
    let st1 := { st with sltp_cfg := cfg1 }
    set_trigger_cover_positions gw positions true 0 false false
      (some vt_symbol) st1

/-- Method `set_tp` (lines 482-484): `self.sltp_cfg[vt_symbol]['takeprofit'] = tp`
(a `KeyError` when the symbol has no config entry), then a
protective-order refresh for that symbol. -/
def set_tp (gw : Submission → Option String) (positions : List PositionData)
    (vt_symbol : String) (tp : ℚ) (st : OKXEngineState) :
    OKXEngineState × List Action × Option PyErr :=
  match dget st.sltp_cfg vt_symbol with
  | none => (st, [], some PyErr.keyError)
  | some cfg =>
    let cfg1 := dset st.sltp_cfg vt_symbol { cfg with takeprofit := tp }
    let st1 := { st with sltp_cfg := cfg1 }
    set_trigger_cover_positions gw positions true 0 false false
      (some vt_symbol) st1

/-- Recognizer for the `set_trigger_cover_positions` invocation trace. -/
def isCoverPass : Action → Bool
  | Action.coverPass _ => true
  | _ => false

/-! Concrete data shared by the witnesses and counterexamples. -/

/-- A gateway oracle that accepts every order (`code = "0"`). -/
def gwOk : Submission → Option String := fun _ => some "0"

/-- A gateway oracle on which every `private_post_trade_order_algo`
call raises, so `send_trigger_order` returns `None`. -/
def gwNone : Submission → Option String := fun _ => none

/-- A gateway oracle that rejects every order with a non-success code. -/
def gwRej : Submission → Option String := fun _ => some "1"

/-- A pending sell reversal watch on symbol `A` with first trigger 10. -/
def wA1 : TTOData := ⟨"A", "sell", 10, 5, 1, -1⟩

/-- A second pending sell reversal watch on symbol `A`, also eligible
at any price above 10. -/
def wA2 : TTOData := ⟨"A", "sell", 10, 6, 2, -1⟩

/-- An engine state with no per-symbol config and engine defaults
`default_sl = -1/2`, `default_tp = 3/2`, global offset `1/10`. -/
def stEmpty : OKXEngineState :=
  ⟨[], -(1/2), 3/2, [], true, 1, [], 1/10, true, [], false⟩

/-- A long position on symbol `S`: entry 100, leverage 10, volume 1,
liquidation price 50. -/
def posW : PositionData := ⟨"S", Direction.long, 1, 100, 10, 50, 0⟩

/-- An engine state whose only config entry is
`S ↦ (stoploss = -1/2, takeprofit = 3/2)`. -/
def stW : OKXEngineState :=
  ⟨[("S", ⟨-(1/2), 3/2⟩)], -(1/2), 3/2, [], true, 1, [], 1/10, true, [], false⟩

/-- Long positions on two distinct symbols `A` and `B`, both open. -/
def pA : PositionData := ⟨"A", Direction.long, 1, 100, 10, 1, 0⟩

/-- See `pA`. -/
def pB : PositionData := ⟨"B", Direction.long, 1, 100, 10, 1, 0⟩

/-! Dictionary lemmas. -/

theorem dget_dset_self {α : Type} (l : List (String × α)) (k : String) (v : α) :
    dget (dset l k v) k = some v := by
  induction l with
  | nil => simp [dget, dset]
  | cons h rest ih =>
      by_cases hk : h.1 = k
      · simp [dget, dset, hk]
      · simp [dget, dset, hk, ih]

theorem dset_dset_self {α : Type} (l : List (String × α)) (k : String) (v w : α) :
    dset (dset l k v) k w = dset l k w := by
  induction l with
  | nil => simp [dset]
  | cons h rest ih =>
      by_cases hk : h.1 = k
      · simp [dset, hk]
      · simp [dset, hk, ih]

theorem dget_dset_ne {α : Type} (l : List (String × α)) (k k' : String) (v : α)
    (h : k ≠ k') : dget (dset l k v) k' = dget l k' := by
  induction l with
  | nil => simp [dget, dset, h]
  | cons hd rest ih =>
      by_cases hk : hd.1 = k
      · simp [dget, dset, hk, h]
      · simp [dget, dset, hk, ih]

theorem dget_map_none {α β : Type} (f : String × α → β)
    (l : List (String × α)) (k : String) (h : dget l k = none) :
    dget (l.map fun kc => (kc.1, f kc)) k = none := by
  induction l with
  | nil => simp [dget]
  | cons hd rest ih =>
      by_cases hk : hd.1 = k
      · simp [dget, hk] at h
      · simp [dget, hk] at h ⊢
        exact ih h

/-! Structural lemmas about the protective-order pass: one loop
iteration either leaves the engine state unchanged or only installs
the default risk config for the position's (previously unconfigured)
symbol, and no iteration ever emits a `coverPass` trace. -/

theorem cover_position_body_state (gw : Submission → Option String)
    (ca : Bool) (o : ℚ) (utp ump : Bool) (st : OKXEngineState)
    (p : PositionData) :
    (cover_position_body gw ca o utp ump st p).1 = st
    ∨ (dget st.sltp_cfg p.vt_symbol = none
       ∧ (cover_position_body gw ca o utp ump st p).1 =
         { st with sltp_cfg := dset st.sltp_cfg p.vt_symbol ⟨st.default_sl, st.default_tp⟩ }) := by
  unfold cover_position_body
  by_cases hv : p.volume = 0
  · left
    simp [hv]
  · rcases h : dget st.sltp_cfg p.vt_symbol with _ | cfg <;> simp only [h, if_neg hv]
    · right
      refine ⟨trivial, ?_⟩
      repeat' first | rfl | split
    · left
      repeat' first | rfl | split

theorem cover_position_body_no_pass (gw : Submission → Option String)
    (ca : Bool) (o : ℚ) (utp ump : Bool) (st : OKXEngineState)
    (p : PositionData) :
    ((cover_position_body gw ca o utp ump st p).2.1.countP isCoverPass) = 0 := by
  unfold cover_position_body
  by_cases hv : p.volume = 0
  · simp [hv, apply_ite (List.countP isCoverPass), isCoverPass]
  · rcases h : dget st.sltp_cfg p.vt_symbol with _ | cfg <;>
      simp only [h, if_neg hv] <;>
      (repeat' split) <;>
      simp [isCoverPass, apply_ite (List.countP isCoverPass)]

theorem cover_positions_loop_no_pass (gw : Submission → Option String)
    (ca : Bool) (o : ℚ) (utp ump : Bool) (fil : Option String) :
    ∀ (ps : List PositionData) (st : OKXEngineState),
    ((cover_positions_loop gw ca o utp ump fil ps st).2.1.countP isCoverPass) = 0 := by
  intro ps
  induction ps with
  | nil => intro st; simp [cover_positions_loop]
  | cons p rest ih =>
      intro st
      unfold cover_positions_loop
      split
      · exact ih st
      · rcases h : (cover_position_body gw ca o utp ump st p).2.2 with _ | e <;>
          simp only [h]
        · simp [List.countP_append, cover_position_body_no_pass, ih]
        · simp [cover_position_body_no_pass]

theorem cover_positions_loop_state (gw : Submission → Option String)
    (ca : Bool) (o : ℚ) (utp ump : Bool) (fil : Option String) :
    ∀ (ps : List PositionData) (st : OKXEngineState),
    ((cover_positions_loop gw ca o utp ump fil ps st).1.default_sl = st.default_sl)
    ∧ ((cover_positions_loop gw ca o utp ump fil ps st).1.default_tp = st.default_tp)
    ∧ ((cover_positions_loop gw ca o utp ump fil ps st).1.last_position = st.last_position)
    ∧ (∀ k c, dget st.sltp_cfg k = some c →
        dget ((cover_positions_loop gw ca o utp ump fil ps st).1.sltp_cfg) k = some c)
    ∧ (∀ k, dget st.sltp_cfg k = none →
        ∀ c, dget ((cover_positions_loop gw ca o utp ump fil ps st).1.sltp_cfg) k = some c →
        c = ⟨st.default_sl, st.default_tp⟩) := by
  intro ps
  induction ps with
  | nil =>
      intro st
      refine ⟨rfl, rfl, rfl, fun k c hc => hc, fun k hk c hc => ?_⟩
      have hc' : dget st.sltp_cfg k = some c := hc
      rw [hk] at hc'
      cases hc'
  | cons p rest ih =>
      intro st
      unfold cover_positions_loop
      split
      · exact ih st
      · rcases h : (cover_position_body gw ca o utp ump st p).2.2 with _ | e <;>
          simp only [h] <;>
          rcases cover_position_body_state gw ca o utp ump st p with hb | ⟨habs, hb⟩
        · rw [hb]
          exact ih st
        · rw [hb]
          obtain ⟨h1, h2, h3, h4, h5⟩ :=
            ih { st with sltp_cfg := dset st.sltp_cfg p.vt_symbol ⟨st.default_sl, st.default_tp⟩ }
          refine ⟨h1, h2, h3, ?_, ?_⟩
          · intro k c hc
            have hne : p.vt_symbol ≠ k := fun he => by
              rw [he, hc] at habs; cases habs
            exact h4 k c (by
              show dget (dset st.sltp_cfg p.vt_symbol ⟨st.default_sl, st.default_tp⟩) k = some c
              rw [dget_dset_ne _ _ _ _ hne]
              exact hc)
          · intro k hk c hc
            by_cases he : p.vt_symbol = k
            · subst he
              have hpres := h4 p.vt_symbol ⟨st.default_sl, st.default_tp⟩
                (dget_dset_self _ _ _)
              rw [hc] at hpres
              exact Option.some.inj hpres
            · have habs2 : dget (dset st.sltp_cfg p.vt_symbol
                  ⟨st.default_sl, st.default_tp⟩) k = none := by
                rw [dget_dset_ne _ _ _ _ he]
                exact hk
              exact h5 k habs2 c hc
        · rw [hb]
          exact ⟨rfl, rfl, rfl, fun k c hc => hc, fun k hk c hc => by
            rw [hk] at hc; cases hc⟩
        · rw [hb]
          refine ⟨rfl, rfl, rfl, ?_, ?_⟩
          · intro k c hc
            have hne : p.vt_symbol ≠ k := fun he => by
              rw [he, hc] at habs; cases habs
            show dget (dset st.sltp_cfg p.vt_symbol ⟨st.default_sl, st.default_tp⟩) k = some c
            rw [dget_dset_ne _ _ _ _ hne]
            exact hc
          · intro k hk c hc
            by_cases he : p.vt_symbol = k
            · subst he
              have hc' : dget (dset st.sltp_cfg p.vt_symbol
                  ⟨st.default_sl, st.default_tp⟩) p.vt_symbol = some c := hc
              rw [dget_dset_self] at hc'
              exact (Option.some.inj hc').symm
            · have hc' : dget (dset st.sltp_cfg p.vt_symbol
                  ⟨st.default_sl, st.default_tp⟩) k = some c := hc
              rw [dget_dset_ne _ _ _ _ he, hk] at hc'
              cases hc'

theorem set_trigger_cover_positions_count (gw : Submission → Option String)
    (positions : List PositionData) (ca : Bool) (o : ℚ) (utp ump : Bool)
    (fil : Option String) (st : OKXEngineState) :
    ((set_trigger_cover_positions gw positions ca o utp ump fil st).2.1.countP
      isCoverPass) = 1 := by
  simp [set_trigger_cover_positions, isCoverPass, cover_positions_loop_no_pass]

theorem sl_tp_checks_no_pass (gw : Submission → Option String)
    (p : PositionData) (st : OKXEngineState) :
    ((sl_tp_checks gw p st).1.countP isCoverPass) = 0 := by
  unfold sl_tp_checks
  repeat' split
  all_goals
    simp [isCoverPass, apply_ite (List.countP isCoverPass)]

theorem check_sl_tp_state (gw : Submission → Option String)
    (positions : List PositionData) (p : PositionData) (st : OKXEngineState) :
    (check_sl_tp gw positions p st).1 =
      (if refresh_decision st.last_position p then
        (set_trigger_cover_positions gw positions true 0 false false
          (some p.vt_symbol) st).1
       else st) := by
  unfold check_sl_tp
  by_cases hc : refresh_decision st.last_position p <;> simp only [hc, if_pos, if_neg,
    ite_true, ite_false, Bool.false_eq_true, not_false_iff]
  · rcases h : (set_trigger_cover_positions gw positions true 0 false false
      (some p.vt_symbol) st).2.2 with _ | e <;> simp [h]
    split <;> rfl
  · split <;> rfl

theorem check_sl_tp_count (gw : Submission → Option String)
    (positions : List PositionData) (p : PositionData) (st : OKXEngineState) :
    ((check_sl_tp gw positions p st).2.1.countP isCoverPass) ≤ 1
    ∧ (refresh_decision st.last_position p = false →
       ((check_sl_tp gw positions p st).2.1.countP isCoverPass) = 0) := by
  unfold check_sl_tp
  by_cases hc : refresh_decision st.last_position p <;> simp only [hc, ite_true,
    ite_false, Bool.false_eq_true, not_false_iff, if_pos, if_neg]
  · constructor
    · rcases h : (set_trigger_cover_positions gw positions true 0 false false
        (some p.vt_symbol) st).2.2 with _ | e <;> simp only [h]
      · split
        · simp [set_trigger_cover_positions_count]
        · simp [List.countP_append, set_trigger_cover_positions_count,
            sl_tp_checks_no_pass]
      · simp [set_trigger_cover_positions_count]
    · intro hfalse
      simp at hfalse
  · constructor
    · split
      · simp
      · simp [sl_tp_checks_no_pass]
    · intro _
      split
      · simp
      · simp [sl_tp_checks_no_pass]

theorem process_position_event_last_position (gw : Submission → Option String)
    (positions : List PositionData) (p : PositionData) (st : OKXEngineState) :
    (process_position_event gw positions p st).1.last_position =
      dset st.last_position p.vt_symbol p := by
  unfold process_position_event
  by_cases hp : st.pauseFlag = false <;> simp only [hp, ite_true, ite_false,
    Bool.false_eq_true, not_false_iff, if_pos, if_neg]
  · have h := check_sl_tp_state gw positions p st
    have h2 := (cover_positions_loop_state gw true 0 false false
      (some p.vt_symbol) positions st).2.2.1
    by_cases hc : refresh_decision st.last_position p <;>
      simp only [hc, ite_true, ite_false] at h <;>
      simp [h, set_trigger_cover_positions, h2]
  · rfl

/-! Claim theorems. -/

/-- C5: for every multiplier `mul ≤ 0`, `adjust_tp` fails its
`assert mul > 0` synchronously (an `AssertionError` before any
mutation) and the stop-loss/take-profit configuration of every symbol
is exactly as it was before the call. -/
theorem c5_adjust_tp_nonpositive_mul (cfgs : List (String × SLTPCfg))
    (vt : Option String) (mul : ℚ) (hm : mul ≤ 0) :
    adjust_tp cfgs vt mul = (cfgs, some PyErr.assertionError) := by
  unfold adjust_tp
  rw [if_pos (not_lt.mpr hm)]

/-- Witness for C5 at the spec scenario `adjustTakeProfit(S, mul=-1)`
with `stopLoss = -0.4`: the call errors and `takeprofit` stays `3/5`. -/
theorem c5_adjust_tp_nonpositive_mul_witness :
    adjust_tp [("S", ⟨-(2/5), 3/5⟩)] (some "S") (-1) =
      ([("S", ⟨-(2/5), 3/5⟩)], some PyErr.assertionError) :=
  c5_adjust_tp_nonpositive_mul [("S", ⟨-(2/5), 3/5⟩)] (some "S") (-1) (by norm_num)

/-- C4 fails on the all-symbols branch: with `stoploss = -2/5` and
`mul = 3/2`, `adjust_tp` on all symbols sets `takeprofit` to `-3/5`
(the source multiplies the raw `stoploss`, without the absolute
value), not to `|stoploss| * mul = 3/5`. -/
theorem c4_adjust_tp_all_counterexample :
    (adjust_tp [("S", ⟨-(2/5), 1⟩)] none (3/2)).1 = [("S", ⟨-(2/5), -(3/5)⟩)]
    ∧ ¬ ((-(3/5) : ℚ) = |(-(2/5) : ℚ)| * (3/2)) := by
  constructor
  · simp [adjust_tp]
  · rw [abs_of_neg (show (-(2/5) : ℚ) < 0 by norm_num)]
    norm_num

/-- C4 amended: for a single configured symbol `adjust_tp` sets
`takeprofit = |stoploss| * mul`; the all-symbols call instead sets
every entry's `takeprofit = stoploss * mul`, without the absolute
value. -/
theorem c4_adjust_tp_amended (cfgs : List (String × SLTPCfg)) (sym : String)
    (cfg : SLTPCfg) (mul : ℚ) (hm : mul > 0) (hc : dget cfgs sym = some cfg) :
    adjust_tp cfgs (some sym) mul =
      (dset cfgs sym { cfg with takeprofit := |cfg.stoploss| * mul }, none)
    ∧ adjust_tp cfgs none mul =
      (cfgs.map fun kc => (kc.1, { kc.2 with takeprofit := kc.2.stoploss * mul }),
       none) := by
  have h : ¬ ¬ mul > 0 := not_not_intro hm
  constructor
  · unfold adjust_tp
    rw [if_neg h]
    simp [hc]
  · unfold adjust_tp
    rw [if_neg h]

/-- Witness for C4 at the spec scenario `adjustTakeProfit(S, mul=3/2)`
with `stoploss = -2/5`: the single-symbol call yields
`takeprofit = 3/5` and the all-symbols call yields `-3/5`. -/
theorem c4_adjust_tp_amended_witness :
    adjust_tp [("S", ⟨-(2/5), 1⟩)] (some "S") (3/2) =
      ([("S", ⟨-(2/5), 3/5⟩)], none)
    ∧ adjust_tp [("S", ⟨-(2/5), 1⟩)] none (3/2) =
      ([("S", ⟨-(2/5), -(3/5)⟩)], none) := by
  have h := c4_adjust_tp_amended [("S", ⟨-(2/5), 1⟩)] "S" ⟨-(2/5), 1⟩ (3/2)
    (by norm_num) rfl
  refine ⟨h.1.trans ?_, h.2.trans ?_⟩
  · simp [dset]
    rw [abs_of_pos (show (0 : ℚ) < 2/5 by norm_num)]
    norm_num
  · simp

/-- C6: creating a reversal watch whose first trigger price is on the
wrong side of the cached current tick price for its side (`buy` with
trigger above the current price, `sell` with trigger below it) is
rejected by `set_trigger_trigger_order` and the pending-watch map is
returned exactly as it was. -/
theorem c6_tto_creation_rejected (last_tick : List (String × TickData))
    (ttos : List (String × List TTOData)) (sym side : String)
    (tp1 tp2 vol opx : ℚ) (clean : Bool) (t : TickData)
    (ht : dget last_tick sym = some t)
    (hbad : (side = "buy" ∧ tp1 > t.last_price)
          ∨ (side = "sell" ∧ tp1 < t.last_price)) :
    set_trigger_trigger_order last_tick ttos sym side tp1 tp2 vol opx clean =
      (ttos, none) := by
  rcases hbad with ⟨hs, hp⟩ | ⟨hs, hp⟩ <;> subst hs <;>
    simp [set_trigger_trigger_order, ht, hp]

/-- C1: for a long position with entry price `p.price`, leverage
`p.lever`, configured stop-loss ratio `sl` and pass offset `o`, the
protective-order pass submits a stop-loss trigger order at the
uncapped price `price * (1 + (sl + o) / lever)`, replaced by
`liqPrice * (1 + globalOffset / lever)` when the uncapped price is at
or below the liquidation price (`globalOffset` is the engine-wide
`self.offset`). -/
theorem c1_stop_loss_formula (gw : Submission → Option String)
    (st : OKXEngineState) (p : PositionData) (sl tpv o : ℚ)
    (hdir : p.direction = Direction.long) (hvol : p.volume ≠ 0)
    (hcfg : dget st.sltp_cfg p.vt_symbol = some ⟨sl, tpv⟩)
    (hgw : ∀ x, gw x = some "0") (htp : st.tp_with_trigger = true) :
    set_trigger_cover_positions gw [p] true o false false none st =
      (st,
       [Action.coverPass none, Action.cancelAll p.vt_symbol "long",
        Action.submit ⟨p.vt_symbol, "sell", "long",
          (if p.price * (1 + (sl + o) / p.lever) ≤ p.liqPrice
           then p.liqPrice * (1 + st.offset / p.lever)
           else p.price * (1 + (sl + o) / p.lever)),
          ((pyRound p.volume : ℤ) : ℚ)⟩],
       none) := by
  simp [set_trigger_cover_positions, cover_positions_loop, cover_position_body,
    sl_trigger_price, filteredOut, hdir, hcfg, htp, hvol, hgw]

/-- Witness for C1 at the spec scenario: symbol `S`, long, entry 100,
leverage 10, `sl = -1/2`, pass offset `1/10`, liquidation price 50
(no clamp): the submitted stop-loss trigger price is exactly 96. -/
theorem c1_stop_loss_formula_witness :
    set_trigger_cover_positions gwOk [posW] true (1/10) false false none stW =
      (stW, [Action.coverPass none, Action.cancelAll "S" "long",
             Action.submit ⟨"S", "sell", "long", 96, 1⟩], none) := by
  have h := c1_stop_loss_formula gwOk stW posW (-(1/2)) (3/2) (1/10) rfl
    (by norm_num [posW]) rfl (fun _ => rfl) rfl
  refine h.trans ?_
  norm_num [posW, stW, pyRound]

/-- C2: a pending `sell` reversal watch, alone in its symbol's queue,
fires exactly once: a tick whose price crosses above its first
trigger causes one second-leg submission with position-side `short`
(the gateway accepting it), after which the watch is removed from the
queue; a further tick for the symbol, at any price, causes no
additional submission. -/
theorem c2_tto_fire_once (gw : Submission → Option String)
    (m : List (String × List TTOData)) (s : String) (w : TTOData)
    (t1 t2 : TickData)
    (hside : w.side = "sell") (hq : dget m s = some [w])
    (hgw : ∀ x, gw x = some "0")
    (h1s : t1.vt_symbol = s) (h1p : t1.last_price > w.trigPx1)
    (h2s : t2.vt_symbol = s) :
    check_trigger_trigger_order gw t1 m =
      (dset m s [], [Action.submit ⟨s, "sell", "short", w.trigPx2, w.volume⟩],
       none)
    ∧ check_trigger_trigger_order gw t2 (dset m s []) =
      (dset m s [], [], none) := by
  constructor
  · simp only [check_trigger_trigger_order, h1s, hq]
    simp [ttoScan, hside, h1p, hgw, List.eraseIdx]
  · simp only [check_trigger_trigger_order, h2s, dget_dset_self]
    simp [ttoScan, dset_dset_self]

/-- Witness for C2: the sell watch `wA1` (first trigger 10) alone on
symbol `A`, with an accepting gateway: the tick at 11 submits the
second leg once and empties the queue; a further tick at 12 submits
nothing. -/
theorem c2_tto_fire_once_witness :
    check_trigger_trigger_order gwOk ⟨"A", 11⟩ [("A", [wA1])] =
      (dset [("A", [wA1])] "A" [],
       [Action.submit ⟨"A", "sell", "short", wA1.trigPx2, wA1.volume⟩], none)
    ∧ check_trigger_trigger_order gwOk ⟨"A", 12⟩ (dset [("A", [wA1])] "A" []) =
      (dset [("A", [wA1])] "A" [], [], none) :=
  c2_tto_fire_once gwOk [("A", [wA1])] "A" wA1 ⟨"A", 11⟩ ⟨"A", 12⟩
    rfl rfl (fun _ => rfl) rfl (by norm_num [wA1]) rfl

/-- C3 fails: with two pending sell watches on the same symbol, both
eligible at the tick price, only the first is submitted and removed;
the `pop(i)` inside `for i in range(0, len(ttos))` shifts the second
watch to index 0, the next iteration reads `ttos[1]` past the end of
the shortened list, and the scan dies with an `IndexError`, so the
second watch is never evaluated on this tick. -/
theorem c3_tto_two_watches_counterexample :
    check_trigger_trigger_order gwOk ⟨"A", 11⟩ [("A", [wA1, wA2])] =
      ([("A", [wA2])], [Action.submit ⟨"A", "sell", "short", 5, 1⟩],
       some PyErr.indexError) := by
  norm_num [check_trigger_trigger_order, dget, ttoScan, wA1, wA2, gwOk, dset,
    List.eraseIdx, show ("sell" : String) ≠ "buy" from by decide]

/-- C3 amended: processing a tick starts evaluating the watches in
insertion order, but removing a fired watch shifts the remaining ones
one index down, so the watch immediately after a fired watch is
skipped on that tick (it stays queued), and the iteration bound fixed
at loop entry makes the scan end with an `IndexError` once it runs
past the shortened queue.  Shown here for a queue of two sell
watches whose first watch is eligible: exactly the first is submitted
and removed, the second is left queued unevaluated, and the scan
raises. -/
theorem c3_tto_insertion_order_amended (gw : Submission → Option String)
    (m : List (String × List TTOData)) (s : String) (w1 w2 : TTOData)
    (t : TickData) (h1 : w1.side = "sell") (hq : dget m s = some [w1, w2])
    (hgw : ∀ x, gw x = some "0") (ht : t.vt_symbol = s)
    (hp1 : t.last_price > w1.trigPx1) :
    check_trigger_trigger_order gw t m =
      (dset m s [w2],
       [Action.submit ⟨s, "sell", "short", w1.trigPx2, w1.volume⟩],
       some PyErr.indexError) := by
  simp only [check_trigger_trigger_order, ht, hq]
  simp [ttoScan, h1, hp1, hgw, List.eraseIdx]

/-- Witness for the amended C3 at the counterexample input. -/
theorem c3_tto_insertion_order_amended_witness :
    check_trigger_trigger_order gwOk ⟨"A", 11⟩ [("A", [wA1, wA2])] =
      (dset [("A", [wA1, wA2])] "A" [wA2],
       [Action.submit ⟨"A", "sell", "short", wA1.trigPx2, wA1.volume⟩],
       some PyErr.indexError) :=
  c3_tto_insertion_order_amended gwOk [("A", [wA1, wA2])] "A" wA1 wA2
    ⟨"A", 11⟩ rfl rfl (fun _ => rfl) rfl (by norm_num [wA1])

/-- Witness for C6: a `buy` watch with first trigger 12 above the
cached price 11 is rejected and the queue map (with one existing
watch) is unchanged, even with `clean_others = true`. -/
theorem c6_tto_creation_rejected_witness :
    set_trigger_trigger_order [("A", ⟨"A", 11⟩)] [("A", [wA1])]
      "A" "buy" 12 6 1 (-1) true = ([("A", [wA1])], none) :=
  c6_tto_creation_rejected [("A", ⟨"A", 11⟩)] [("A", [wA1])] "A" "buy"
    12 6 1 (-1) true ⟨"A", 11⟩ rfl (Or.inl ⟨rfl, by norm_num⟩)

/-- C7: two consecutive position events for the same symbol reporting
the same volume run the protective-order refresh
(`set_trigger_cover_positions`) at most once: the second event, whose
cached `last_position` snapshot now carries the same volume, never
invokes it. -/
theorem c7_no_duplicate_refresh (gw : Submission → Option String)
    (positions : List PositionData) (st : OKXEngineState)
    (p1 p2 : PositionData) (hsym : p1.vt_symbol = p2.vt_symbol)
    (hvol : p1.volume = p2.volume) :
    (((process_position_event gw positions p2
        (process_position_event gw positions p1 st).1).2.countP isCoverPass) = 0)
    ∧ ((process_position_event gw positions p1 st).2.countP isCoverPass
       + ((process_position_event gw positions p2
           (process_position_event gw positions p1 st).1).2.countP isCoverPass)
       ≤ 1) := by
  set st1 := (process_position_event gw positions p1 st).1 with hst1
  have hlp : st1.last_position = dset st.last_position p1.vt_symbol p1 := by
    rw [hst1]
    exact process_position_event_last_position gw positions p1 st
  have hdec : refresh_decision st1.last_position p2 = false := by
    unfold refresh_decision
    rw [hlp, ← hsym, dget_dset_self]
    simp [hvol]
  have h2 : ((process_position_event gw positions p2 st1).2.countP
      isCoverPass) = 0 := by
    unfold process_position_event
    by_cases hp : st1.pauseFlag = false <;>
      simp only [hp, ite_true, ite_false, Bool.false_eq_true, not_false_iff,
        if_pos, if_neg]
    · exact (check_sl_tp_count gw positions p2 st1).2 hdec
    · simp
  refine ⟨h2, ?_⟩
  rw [h2]
  have h1 : ((process_position_event gw positions p1 st).2.countP isCoverPass) ≤ 1 := by
    unfold process_position_event
    by_cases hp : st.pauseFlag = false <;>
      simp only [hp, ite_true, ite_false, Bool.false_eq_true, not_false_iff,
        if_pos, if_neg]
    · exact (check_sl_tp_count gw positions p1 st).1
    · simp
  omega

/-- Witness for C7: two consecutive identical position events on
symbol `S` (volume 1) against a fresh engine state; the first event
runs the refresh once, the second runs none. -/
theorem c7_no_duplicate_refresh_witness :
    (((process_position_event gwOk [] posW
        (process_position_event gwOk [] posW stW).1).2.countP isCoverPass) = 0)
    ∧ ((process_position_event gwOk [] posW stW).2.countP isCoverPass
       + ((process_position_event gwOk [] posW
           (process_position_event gwOk [] posW stW).1).2.countP isCoverPass)
       ≤ 1) :=
  c7_no_duplicate_refresh gwOk [] stW posW posW rfl rfl

/-- C10: the per-symbol setters `set_sl` and `set_tp` on a symbol with
no entry in `self.sltp_cfg` raise a `KeyError` and leave the whole
engine state (in particular the config store) unchanged, creating no
entry; any config entry that a protective-order pass finds absent and
creates holds exactly the engine defaults `(default_sl, default_tp)`;
and `adjust_tp`, the other embedded config mutator, never creates an
entry either. -/
theorem c10_set_sl_keyerror (gw : Submission → Option String)
    (positions : List PositionData) (st : OKXEngineState) (sym : String)
    (v : ℚ) (habs : dget st.sltp_cfg sym = none) :
    set_sl gw positions sym v st = (st, [], some PyErr.keyError)
    ∧ set_tp gw positions sym v st = (st, [], some PyErr.keyError)
    ∧ (∀ (ca : Bool) (o : ℚ) (utp ump : Bool) (fil : Option String)
        (k : String) (c : SLTPCfg), dget st.sltp_cfg k = none →
        dget ((set_trigger_cover_positions gw positions ca o utp ump fil
          st).1.sltp_cfg) k = some c →
        c = ⟨st.default_sl, st.default_tp⟩)
    ∧ (∀ (vt : Option String) (mul : ℚ) (k : String),
        dget st.sltp_cfg k = none →
        dget (adjust_tp st.sltp_cfg vt mul).1 k = none) := by
  refine ⟨?_, ?_, ?_, ?_⟩
  · simp [set_sl, habs]
  · simp [set_tp, habs]
  · intro ca o utp ump fil k c hk hc
    exact (cover_positions_loop_state gw ca o utp ump fil positions st).2.2.2.2
      k hk c hc
  · intro vt mul k hk
    unfold adjust_tp
    by_cases hm : mul > 0
    · rw [if_neg (not_not_intro hm)]
      rcases vt with _ | s
      · simpa using dget_map_none _ st.sltp_cfg k hk
      · rcases hs : dget st.sltp_cfg s with _ | cfg
        · simpa [hs] using hk
        · have hne : s ≠ k := fun he => by rw [he, hk] at hs; cases hs
          simpa [hs, dget_dset_ne _ _ _ _ hne] using hk
    · rw [if_pos (not_lt.mpr (not_lt.mp hm))]
      exact hk

/-- Witness for C10: on a state whose config store only holds `S`,
`set_sl`/`set_tp` for the unconfigured symbol `A` raise `KeyError`
without mutating anything, the protective-order pass creates only
default entries, and `adjust_tp` creates none. -/
theorem c10_set_sl_keyerror_witness :
    set_sl gwOk [] "A" (-(1/4)) stW = (stW, [], some PyErr.keyError)
    ∧ set_tp gwOk [] "A" (1/4) stW = (stW, [], some PyErr.keyError)
    ∧ (∀ (ca : Bool) (o : ℚ) (utp ump : Bool) (fil : Option String)
        (k : String) (c : SLTPCfg), dget stW.sltp_cfg k = none →
        dget ((set_trigger_cover_positions gwOk [] ca o utp ump fil
          stW).1.sltp_cfg) k = some c →
        c = ⟨stW.default_sl, stW.default_tp⟩)
    ∧ (∀ (vt : Option String) (mul : ℚ) (k : String),
        dget stW.sltp_cfg k = none →
        dget (adjust_tp stW.sltp_cfg vt mul).1 k = none) := by
  have h := c10_set_sl_keyerror gwOk [] stW "A" (-(1/4)) rfl
  exact ⟨h.1, by
    have h2 := c10_set_sl_keyerror gwOk [] stW "A" (1/4) rfl
    exact h2.2.1, h.2.2.1, h.2.2.2⟩

/-- C8: behaviour at the failing input.  With open positions on the
two symbols `A` and `B` and a gateway on which every algo-order call
raises (so `send_trigger_order` catches, logs and returns `None`),
the protective-order pass crashes with a `TypeError` at
`data['code']` right after submitting `A`'s stop-loss order: no
action for symbol `B` is ever performed, so a gateway exception on
one symbol does prevent the evaluation of the remaining symbols of
the pass.  With a gateway returning a non-success result code
instead, both symbols are evaluated, as the claim says. -/
theorem c8_gateway_exception_aborts_pass :
    set_trigger_cover_positions gwNone [pA, pB] true 0 false false none stEmpty =
      ({ stEmpty with sltp_cfg := [("A", ⟨-(1/2), 3/2⟩)] },
       [Action.coverPass none, Action.cancelAll "A" "long", Action.subscribe "A",
        Action.submit ⟨"A", "sell", "long", 95, 1⟩],
       some PyErr.typeError)
    ∧ set_trigger_cover_positions gwRej [pA, pB] true 0 false false none stEmpty =
      ({ stEmpty with sltp_cfg := [("A", ⟨-(1/2), 3/2⟩), ("B", ⟨-(1/2), 3/2⟩)] },
       [Action.coverPass none, Action.cancelAll "A" "long", Action.subscribe "A",
        Action.submit ⟨"A", "sell", "long", 95, 1⟩,
        Action.cancelAll "B" "long", Action.subscribe "B",
        Action.submit ⟨"B", "sell", "long", 95, 1⟩],
       none) := by
  constructor <;>
    norm_num [set_trigger_cover_positions, cover_positions_loop,
      cover_position_body, sl_trigger_price, filteredOut, gwNone, gwRej, pA, pB,
      stEmpty, dget, dset, pyRound,
      show Direction.long ≠ Direction.short from by decide,
      show ("sell" : String) ≠ "buy" from by decide,
      show ("A" : String) ≠ "B" from by decide,
      show ("B" : String) ≠ "A" from by decide]

/-- C9: with the engine-wide pause flag set, a position event runs no
protective-order evaluation (`check_sl_tp` is not invoked: no action
is emitted and the only state change is the unconditional
`last_position` cache update), while a tick event behaves exactly as
with the flag clear (same actions, same state up to the flag);
`pause` itself only sets the flag. -/
theorem c9_pause_flag (gw : Submission → Option String)
    (positions : List PositionData) (t : TickData) (p : PositionData)
    (st : OKXEngineState) :
    (process_tick_event gw t { st with pauseFlag := true }).1 =
      { (process_tick_event gw t { st with pauseFlag := false }).1 with
        pauseFlag := true }
    ∧ (process_tick_event gw t { st with pauseFlag := true }).2 =
      (process_tick_event gw t { st with pauseFlag := false }).2
    ∧ process_position_event gw positions p { st with pauseFlag := true } =
      ({ st with pauseFlag := true,
                 last_position := dset st.last_position p.vt_symbol p }, [])
    ∧ pause st = { st with pauseFlag := true } := by
  refine ⟨rfl, rfl, rfl, ?_⟩
  cases st
  simp [pause]

end OKX
